import Mathlib

/-!
Verification of the screenshot-api repository core against its design
specification.  The JavaScript source is shallowly embedded: each JS
function that the claims mention becomes an executable Lean definition
over explicit data (query parameters are `Option String`, the WHATWG
parse outcome is a `ParsedUrl` record, the Playwright session is a
trace of events).  JS machine behaviour the source relies on
(`parseInt`, falsy `||`, `toLowerCase`, `includes`, object-property
lookup through the prototype chain) is modelled explicitly where the
source uses it.  String scanning is written by structural recursion on
the character list so that every definition evaluates inside the
kernel.
-/

namespace ScreenshotAPI

/-! ## Character-list helpers for the JS string primitives -/

/-- Test that `p` is an initial run of `s` (character lists). -/
def charsLead : List Char → List Char → Bool
  | [], _ => true
  | _ :: _, [] => false
  | a :: as, b :: bs => a == b && charsLead as bs

/-- Test that `pat` occurs contiguously inside `s` (character lists). -/
def charsInside (pat : List Char) : List Char → Bool
  | [] => charsLead pat []
  | b :: rest => charsLead pat (b :: rest) || charsInside pat rest

/-- JS `s.includes(pat)`. -/
def strIncludes (s pat : String) : Bool :=
  charsInside pat.data s.data

/-- JS `s.startsWith(pre)`. -/
def strStarts (s pre : String) : Bool :=
  charsLead pre.data s.data

/-- JS `s.endsWith(suf)`. -/
def strEnds (s suf : String) : Bool :=
  charsLead suf.data.reverse s.data.reverse

/-- JS `s.slice(1, -1)`: the string without its first and last character. -/
def strSlice1m1 (s : String) : String :=
  ⟨(s.data.drop 1).dropLast⟩

/-- JS `s.toLowerCase()` on the ASCII hostnames the validator sees. -/
def asciiLower (s : String) : String :=
  ⟨s.data.map Char.toLower⟩

/-- Split a character list at every dot, the behaviour of the anchored
IPv4 regexes whose alternatives never match a dot. -/
def splitDots : List Char → List (List Char)
  | [] => [[]]
  | '.' :: rest => [] :: splitDots rest
  | c :: rest =>
    match splitDots rest with
    | [] => [[c]]
    | seg :: segs => (c :: seg) :: segs

/-! ## URL validator (src/validator.js) -/

/-- Outcome of the WHATWG `new URL(url)` call for a raw query value, as the
validator observes it: `protocol` keeps its trailing colon, `href` is the
parser's serialization. -/
structure ParsedUrl where
  protocol : String
  hostname : String
  href : String
deriving DecidableEq, Repr

/-- Raw input to `validateUrl`: absent (or non-string), a string the URL
parser rejects, or a string the URL parser accepts as `p`. -/
inductive RawInput where
  | missing
  | unparsable
  | parsed (p : ParsedUrl)
deriving DecidableEq, Repr

/-- Return shape of `validateUrl`: `{ valid: false, error }` or
`{ valid: true, url }`. -/
inductive ValidationResult where
  | invalid (error : String)
  | valid (url : String)
deriving DecidableEq, Repr

/-- A run of 1 to 3 decimal digit characters, the JS regex piece
`\d{1,3}` anchored to a whole dot-separated segment. -/
def digits13 (cs : List Char) : Bool :=
  decide (1 ≤ cs.length) && decide (cs.length ≤ 3) && cs.all Char.isDigit

/-- Second octet alternative of the 172.16/12 regex: `(1[6-9]|2\d|3[0-1])`. -/
def seg172 (cs : List Char) : Bool :=
  match cs with
  | ['1', c] => decide ('6' ≤ c) && decide (c ≤ '9')
  | ['2', c] => c.isDigit
  | ['3', c] => c == '0' || c == '1'
  | _ => false

/-- Regex `^10\.\d{1,3}\.\d{1,3}\.\d{1,3}$` (10.0.0.0/8 literal text).
Splitting on the dot is faithful because no alternative matches a dot and
the regex is anchored at both ends. -/
def ipv4In10 (s : String) : Bool :=
  match splitDots s.data with
  | [a, b, c, d] => a == "10".data && digits13 b && digits13 c && digits13 d
  | _ => false

/-- Regex `^172\.(1[6-9]|2\d|3[0-1])\.\d{1,3}\.\d{1,3}$` (172.16.0.0/12). -/
def ipv4In172 (s : String) : Bool :=
  match splitDots s.data with
  | [a, b, c, d] => a == "172".data && seg172 b && digits13 c && digits13 d
  | _ => false

/-- Regex `^192\.168\.\d{1,3}\.\d{1,3}$` (192.168.0.0/16). -/
def ipv4In192168 (s : String) : Bool :=
  match splitDots s.data with
  | [a, b, c, d] => a == "192".data && b == "168".data && digits13 c && digits13 d
  | _ => false

/-- Regex `^169\.254\.\d{1,3}\.\d{1,3}$` (169.254.0.0/16 link-local). -/
def ipv4In169254 (s : String) : Bool :=
  match splitDots s.data with
  | [a, b, c, d] => a == "169".data && b == "254".data && digits13 c && digits13 d
  | _ => false

/-- Regex `^127\.\d{1,3}\.\d{1,3}\.\d{1,3}$` (127.0.0.0/8 loopback). -/
def ipv4In127 (s : String) : Bool :=
  match splitDots s.data with
  | [a, b, c, d] => a == "127".data && digits13 b && digits13 c && digits13 d
  | _ => false

/-- `isPrivateIP`: `PRIVATE_IP_RANGES.some((regex) => regex.test(ip))`. -/
def isPrivateIP (ip : String) : Bool :=
  ipv4In10 ip || ipv4In172 ip || ipv4In192168 ip || ipv4In169254 ip || ipv4In127 ip

/-- `BLOCKED_HOSTNAMES = ['localhost', '127.0.0.1', '::1', '[::1]']`. -/
def BLOCKED_HOSTNAMES : List String :=
  ["localhost", "127.0.0.1", "::1", "[::1]"]

/-- Inner IPv6 test of the validator: loopback `::1`, link-local `fe80:`,
or unique-local `fc` / `fd` text of the bracket-stripped hostname. -/
def ipv6Private (v : String) : Bool :=
  v == "::1" || strStarts v "fe80:" || strStarts v "fc" || strStarts v "fd"

/-- Bracketed private IPv6 literal check of the validator: the hostname is
`[...]` and the text between the brackets is a private IPv6 literal. -/
def bracketedPrivateIPv6 (hostname : String) : Bool :=
  strStarts hostname "[" && strEnds hostname "]" &&
    ipv6Private (strSlice1m1 hostname)

/-- `validateUrl` from src/validator.js: missing input, parse failure,
protocol allow-list, blocked hostname literals (on the lower-cased
hostname), literal private IPv4 ranges, then bracketed private IPv6
literals; success returns the parser's serialized `href`. -/
def validateUrl : RawInput → ValidationResult
  | .missing => .invalid "URL parameter is required"
  | .unparsable => .invalid "Invalid URL format"
  | .parsed p =>
    if p.protocol == "http:" || p.protocol == "https:" then
      let hostname := asciiLower p.hostname
      if BLOCKED_HOSTNAMES.contains hostname then
        .invalid "localhost and loopback addresses are not allowed"
      else if isPrivateIP hostname then
        .invalid "Private IP addresses are not allowed"
      else if bracketedPrivateIPv6 hostname then
        .invalid "Private IPv6 addresses are not allowed"
      else
        .valid p.href
    else
      .invalid "Only http and https protocols are allowed"

/-! ## Viewport policy (src/validator.js `validateViewport`, and the inline
normalization of the /v1/screenshot handler) -/

/-- Whitespace characters `parseInt` skips before the number. -/
def jsWhitespaceChar (c : Char) : Bool :=
  c == ' ' || c == '\t' || c == '\n' || c == '\r' || c == '\x0b' || c == '\x0c'

/-- Value of a digit-character run, most significant first. -/
def digitsVal (acc : Nat) : List Char → Nat
  | [] => acc
  | c :: cs => digitsVal (acc * 10 + (c.toNat - '0'.toNat)) cs

/-- JS `parseInt(s, 10)` on a string: skip leading whitespace, read an
optional sign, then the longest run of leading decimal digits; `none`
models `NaN` (no digits at all). -/
def jsParseIntStr (s : String) : Option Int :=
  let cs := s.data.dropWhile jsWhitespaceChar
  match cs with
  | '-' :: rest =>
    let ds := rest.takeWhile Char.isDigit
    if ds.isEmpty then none else some (-(digitsVal 0 ds : Int))
  | '+' :: rest =>
    let ds := rest.takeWhile Char.isDigit
    if ds.isEmpty then none else some ((digitsVal 0 ds : Int))
  | other =>
    let ds := other.takeWhile Char.isDigit
    if ds.isEmpty then none else some ((digitsVal 0 ds : Int))

/-- JS `parseInt(x, 10)` where `x` is an optional query value: an absent
value stringifies to "undefined", which has no leading digits, hence `NaN`. -/
def jsParseInt : Option String → Option Int
  | none => none
  | some s => jsParseIntStr s

/-- `validateViewport` from src/validator.js: parse each axis with
`parseInt`, replace `NaN` by the default (1366 / 768), then clamp to
`[200, 3000]` with `Math.max(200, Math.min(3000, v))`. -/
def validateViewport (width height : Option String) : Int × Int :=
  let w := match jsParseInt width with
    | none => 1366
    | some n => n
  let h := match jsParseInt height with
    | none => 768
    | some n => n
  (max 200 (min 3000 w), max 200 (min 3000 h))

/-! ## Subscription limits (middleware/rapidapi) -/

/-- One record of the tier-limits table. -/
structure Limits where
  requestsPerMonth : Int
  maxViewportWidth : Int
  maxViewportHeight : Int
deriving DecidableEq, Repr

def basicLimits : Limits := ⟨100, 1920, 1080⟩

def proLimits : Limits := ⟨1000, 2560, 1440⟩

def ultraLimits : Limits := ⟨10000, 3000, 3000⟩

def megaLimits : Limits := ⟨100000, 3000, 3000⟩

/-- Own property names of `Object.prototype`: a JS object literal inherits
all of them, so `limits[subscription]` finds a (truthy, non-record) value
for each of these keys. -/
def objectPrototypeProps : List String :=
  ["constructor", "hasOwnProperty", "isPrototypeOf", "propertyIsEnumerable",
   "toLocaleString", "toString", "valueOf", "__proto__",
   "__defineGetter__", "__defineSetter__", "__lookupGetter__", "__lookupSetter__"]

/-- What `limits[subscription] || limits.BASIC` can produce: one of the four
tier records, or a member inherited from `Object.prototype` (a function or
prototype object, which is truthy, so `||` does not replace it). -/
inductive SubLimitsResult where
  | limits (l : Limits)
  | protoMember (name : String)
deriving DecidableEq, Repr

/-- `getSubscriptionLimits` from the middleware: `limits[subscription] ||
limits.BASIC` on the object literal keyed BASIC/PRO/ULTRA/MEGA.  Property
lookup on a JS object literal falls through to `Object.prototype`, whose
members are truthy, so only keys absent from both the literal and the
prototype chain (`undefined`, falsy) fall back to the BASIC record. -/
def getSubscriptionLimits (subscription : String) : SubLimitsResult :=
  if subscription = "BASIC" then .limits basicLimits
  else if subscription = "PRO" then .limits proLimits
  else if subscription = "ULTRA" then .limits ultraLimits
  else if subscription = "MEGA" then .limits megaLimits
  else if objectPrototypeProps.contains subscription then .protoMember subscription
  else .limits basicLimits

/-- JS `x || d` on the result of `parseInt`: `NaN` and `0` (also `-0`) are
falsy, every other number is kept. -/
def jsOrInt (o : Option Int) (d : Int) : Int :=
  match o with
  | none => d
  | some n => if n = 0 then d else n

/-- Inline viewport normalization of the /v1/screenshot handler:
`w = parseInt(width, 10) || 1366` then
`w = Math.max(200, Math.min(limits.maxViewportWidth, w))`, per axis. -/
def v1Viewport (width height : Option String) (l : Limits) : Int × Int :=
  (max 200 (min l.maxViewportWidth (jsOrInt (jsParseInt width) 1366)),
   max 200 (min l.maxViewportHeight (jsOrInt (jsParseInt height) 768)))

/-- Modelled from the spec: `ViewportPolicy.normalize` with tier limits.
The repository's `validateViewport` takes no tier-limit argument, so the
spec's contract "parse as integer, absent/unparsable falls back to the
default per axis, then clamp to [200, min(3000, tierLimits.max)]" is
written out here from the spec's words for one axis. -/
def normalizeSpec (raw : Option String) (dflt tierMax : Int) : Int :=
  max 200 (min (min 3000 tierMax) ((jsParseInt raw).getD dflt))

/-! ## Error classifier (/v1/screenshot catch block) -/

/-- Error classification of the /v1/screenshot catch block: ordered
substring tests on `error.message`, first match wins, producing the
response code and HTTP status. -/
def classifyError (msg : String) : String × Nat :=
  if strIncludes msg "timeout" || strIncludes msg "Timeout" then
    ("TIMEOUT", 504)
  else if strIncludes msg "net::ERR_NAME_NOT_RESOLVED" then
    ("DOMAIN_NOT_FOUND", 400)
  else if strIncludes msg "net::ERR_CONNECTION_REFUSED" then
    ("CONNECTION_REFUSED", 400)
  else
    ("CAPTURE_FAILED", 500)

/-! ## Capture orchestrator (src/screenshot.js `captureScreenshot`) -/

/-- Observable events of one `captureScreenshot` call: each awaited
Playwright step that completes, the `browser.close()` of the `finally`
block, and the terminal return or raise. -/
inductive CaptureEvent where
  | launch
  | newContext
  | newPage
  | goto
  | screenshot
  | close
  | ret
  | raise (msg : String)
deriving DecidableEq, Repr

/-- Fault injection for one call: for each awaited step, `none` means the
step succeeds and `some e` means it throws `e`. -/
structure CaptureFaults where
  launch : Option String
  newContext : Option String
  newPage : Option String
  goto : Option String
  screenshot : Option String
deriving DecidableEq, Repr

/-- Event trace of `captureScreenshot` under injected faults, following the
source's control flow: `browser` starts `null`; the whole body runs in a
`try` whose `finally` calls `browser.close()` exactly when `browser` is
non-null, i.e. when the launch step completed; any throw after launch
therefore passes through `close` before the raise propagates. -/
def captureScreenshotTrace (f : CaptureFaults) : List CaptureEvent :=
  match f.launch with
  | some e => [.raise e]
  | none =>
    CaptureEvent.launch ::
      match f.newContext with
      | some e => [.close, .raise e]
      | none =>
        CaptureEvent.newContext ::
          match f.newPage with
          | some e => [.close, .raise e]
          | none =>
            CaptureEvent.newPage ::
              match f.goto with
              | some e => [.close, .raise e]
              | none =>
                CaptureEvent.goto ::
                  match f.screenshot with
                  | some e => [.close, .raise e]
                  | none => [.screenshot, .close, .ret]

/-- Number of `close` events in a trace. -/
def countClose : List CaptureEvent → Nat
  | [] => 0
  | .close :: rest => countClose rest + 1
  | _ :: rest => countClose rest

/-! ## RapidAPI middleware (the two middleware variants) -/

/-- The request headers the middleware reads; `none` is an absent header. -/
structure ReqHeaders where
  proxySecret : Option String
  key : Option String
  host : Option String
  user : Option String
  subscription : Option String
deriving DecidableEq, Repr

/-- Middleware outcome: an immediate JSON response with a status and error
code, or `next()` with the subscription value stored on the request. -/
inductive MwOutcome where
  | respond (status : Nat) (code : String)
  | handler (subscription : String)
deriving DecidableEq, Repr

/-- JS falsiness of a possibly-absent string: `undefined` and the empty
string are falsy. -/
def jsFalsy : Option String → Bool
  | none => true
  | some s => s == ""

/-- JS `x || d` for a possibly-absent string value. -/
def jsOrStr (o : Option String) (d : String) : String :=
  match o with
  | none => d
  | some s => if s = "" then d else s

/-- `validateRapidAPI`, strict variant: the proxy secret is mandatory; an
unconfigured secret is answered 500/CONFIG\_ERROR before anything else, a
wrong secret 403/FORBIDDEN, otherwise the handler runs with
`subscription = headers[x-rapidapi-subscription] || 'BASIC'`. -/
def validateRapidAPI (envSecret : Option String) (req : ReqHeaders) : MwOutcome :=
  if jsFalsy envSecret then .respond 500 "CONFIG_ERROR"
  else if req.proxySecret == envSecret then .handler (jsOrStr req.subscription "BASIC")
  else .respond 403 "FORBIDDEN"

/-- `validateRapidAPI`, host-checking variant: key and host headers are
mandatory (401 otherwise), the host must match `RAPIDAPI_HOST` when that is
configured, and the proxy secret is checked only when configured; with both
env values unconfigured a request with key and host reaches the handler. -/
def validateRapidAPIv2 (envSecret envHost : Option String) (req : ReqHeaders) : MwOutcome :=
  if jsFalsy req.key then .respond 401 "UNAUTHORIZED"
  else if jsFalsy req.host then .respond 401 "UNAUTHORIZED"
  else if !jsFalsy envHost && req.host != envHost then .respond 403 "FORBIDDEN"
  else if !jsFalsy envSecret && req.proxySecret != envSecret then .respond 403 "FORBIDDEN"
  else .handler (jsOrStr req.subscription "BASIC")

/-! ## Simple /screenshot handler (src/index.js) -/

/-- Response of the unauthenticated /screenshot handler as (status, error
or content marker): a failed validation is 400 with the validator's error,
a capture fault is caught and answered 500 with the fixed text, a captured
image is sent as 200. -/
def simpleScreenshotResponse (inp : RawInput) (capture : Except String Nat) : Nat × String :=
  match validateUrl inp with
  | .invalid e => (400, e)
  | .valid _ =>
    match capture with
    | .ok _ => (200, "image/png")
    | .error _ => (500, "Screenshot capture failed")


/-! ## Theorems about the embedded program -/

/-- Helper: a successful validation always returns the parser's href. -/
theorem validateUrl_valid_href (p : ParsedUrl) (u : String)
    (h : validateUrl (.parsed p) = .valid u) : u = p.href := by
  simp only [validateUrl] at h
  split_ifs at h
  all_goals simp_all

/-- Safety invariant of a hostname/scheme pair that survives validation:
allowed scheme, lower-cased hostname not blocked, no private IPv4 literal
match, no bracketed private IPv6 literal. -/
def urlSafe (p : ParsedUrl) : Prop :=
  (p.protocol = "http:" ∨ p.protocol = "https:") ∧
  asciiLower p.hostname ∉ BLOCKED_HOSTNAMES ∧
  isPrivateIP (asciiLower p.hostname) = false ∧
  bracketedPrivateIPv6 (asciiLower p.hostname) = false

/-- C1: whenever `validateUrl` succeeds, the input was a parseable URL whose
scheme is http or https and whose lower-cased hostname is not a blocked
literal, matches none of the literal private IPv4 range patterns
(10/8, 172.16/12, 192.168/16, 169.254/16, 127/8), and is not a bracketed
IPv6 loopback, link-local, or unique-local literal; the returned url is the
parser's normalized href. -/
theorem validateUrl_safe (inp : RawInput) (u : String)
    (h : validateUrl inp = .valid u) :
    ∃ p, inp = .parsed p ∧ u = p.href ∧ urlSafe p := by
  cases inp with
  | missing => simp [validateUrl] at h
  | unparsable => simp [validateUrl] at h
  | parsed p =>
    refine ⟨p, rfl, validateUrl_valid_href p u h, ?_⟩
    simp only [validateUrl] at h
    by_cases hc1 : p.protocol = "http:" ∨ p.protocol = "https:"
    · by_cases hc2 : asciiLower p.hostname ∈ BLOCKED_HOSTNAMES
      · simp [hc1, hc2] at h
      · cases hc3 : isPrivateIP (asciiLower p.hostname) with
        | true => simp [hc1, hc2, hc3] at h
        | false =>
          cases hc4 : bracketedPrivateIPv6 (asciiLower p.hostname) with
          | true => simp [hc1, hc2, hc3, hc4] at h
          | false => exact ⟨hc1, hc2, hc3, hc4⟩
    · simp [hc1] at h

/-- C1 witness: a concrete public https URL passes validation and the
invariant holds for it. -/
theorem validateUrl_safe_witness :
    ∃ p, RawInput.parsed ⟨"https:", "example.com", "https://example.com/"⟩ =
        RawInput.parsed p ∧
      "https://example.com/" = p.href ∧ urlSafe p :=
  validateUrl_safe
    (RawInput.parsed ⟨"https:", "example.com", "https://example.com/"⟩)
    "https://example.com/" (by decide)

/-- Helper: a string matching one of the private IPv4 range patterns can
only be the blocked literal `127.0.0.1`, never `localhost`, `::1` or
`[::1]`. -/
theorem isPrivateIP_not_other_blocked (s : String) (h : isPrivateIP s = true)
    (h127 : s ≠ "127.0.0.1") : s ∉ BLOCKED_HOSTNAMES := by
  intro hmem
  simp only [BLOCKED_HOSTNAMES, List.mem_cons, List.not_mem_nil, or_false] at hmem
  rcases hmem with rfl | rfl | rfl | rfl
  · exact absurd h (by decide)
  · exact absurd rfl h127
  · exact absurd h (by decide)
  · exact absurd h (by decide)

/-- C2 (amended): an http/https URL whose lower-cased hostname matches a
literal private IPv4 range and is not the exact literal `127.0.0.1` is
rejected with the private-IP error; `127.0.0.1` itself is caught one step
earlier by the blocked-hostname check (see the counterexample). -/
theorem validateUrl_private_ip (p : ParsedUrl)
    (hs : p.protocol = "http:" ∨ p.protocol = "https:")
    (hp : isPrivateIP (asciiLower p.hostname) = true)
    (h127 : asciiLower p.hostname ≠ "127.0.0.1") :
    validateUrl (.parsed p) = .invalid "Private IP addresses are not allowed" := by
  have hnb : asciiLower p.hostname ∉ BLOCKED_HOSTNAMES :=
    isPrivateIP_not_other_blocked _ hp h127
  simp [validateUrl, hs, hnb, hp]

/-- C2 witness: `http://10.1.2.3/` is rejected with the private-IP error. -/
theorem validateUrl_private_ip_witness :
    validateUrl (.parsed ⟨"http:", "10.1.2.3", "http://10.1.2.3/"⟩) =
      .invalid "Private IP addresses are not allowed" :=
  validateUrl_private_ip ⟨"http:", "10.1.2.3", "http://10.1.2.3/"⟩
    (Or.inl rfl) (by decide) (by decide)

/-- C2 counterexample: `127.0.0.1` lies in the 127/8 literal range, yet
`validateUrl` answers the blocked-hostname error, not the private-IP
error, because the blocked-literal check runs first. -/
theorem validateUrl_loopback_blocked_first :
    isPrivateIP "127.0.0.1" = true ∧
    validateUrl (.parsed ⟨"http:", "127.0.0.1", "http://127.0.0.1/"⟩) =
      .invalid "localhost and loopback addresses are not allowed" ∧
    validateUrl (.parsed ⟨"http:", "127.0.0.1", "http://127.0.0.1/"⟩) ≠
      .invalid "Private IP addresses are not allowed" := by
  refine ⟨by decide, by decide, by decide⟩

/-- C3: once the browser launch step has succeeded, every exit path of
`captureScreenshot` — successful capture, or a throw from context
creation, page creation, navigation (timeouts and network failures
included), or the screenshot step — performs the `browser.close()`
teardown exactly once, immediately before the call returns or raises. -/
theorem captureScreenshot_closes_once (f : CaptureFaults) (h : f.launch = none) :
    countClose (captureScreenshotTrace f) = 1 ∧
    ∃ pre fin, captureScreenshotTrace f = pre ++ [CaptureEvent.close, fin] ∧
      (fin = CaptureEvent.ret ∨ ∃ m, fin = CaptureEvent.raise m) := by
  obtain ⟨fl, fc, fp, fg, fs⟩ := f
  simp only at h
  subst h
  cases fc with
  | some e =>
    exact ⟨rfl, [CaptureEvent.launch], .raise e, rfl, Or.inr ⟨e, rfl⟩⟩
  | none =>
    cases fp with
    | some e =>
      exact ⟨rfl, [CaptureEvent.launch, .newContext], .raise e, rfl, Or.inr ⟨e, rfl⟩⟩
    | none =>
      cases fg with
      | some e =>
        exact ⟨rfl, [CaptureEvent.launch, .newContext, .newPage], .raise e, rfl,
          Or.inr ⟨e, rfl⟩⟩
      | none =>
        cases fs with
        | some e =>
          exact ⟨rfl, [CaptureEvent.launch, .newContext, .newPage, .goto], .raise e,
            rfl, Or.inr ⟨e, rfl⟩⟩
        | none =>
          exact ⟨rfl, [CaptureEvent.launch, .newContext, .newPage, .goto, .screenshot],
            .ret, rfl, Or.inl rfl⟩

/-- C3 witness: with a connection failure injected during navigation, the
trace closes the browser exactly once before the raise. -/
theorem captureScreenshot_closes_once_witness :
    countClose (captureScreenshotTrace
      ⟨none, none, none, some "net::ERR_CONNECTION_REFUSED", none⟩) = 1 ∧
    ∃ pre fin,
      captureScreenshotTrace
          ⟨none, none, none, some "net::ERR_CONNECTION_REFUSED", none⟩ =
        pre ++ [CaptureEvent.close, fin] ∧
      (fin = CaptureEvent.ret ∨ ∃ m, fin = CaptureEvent.raise m) :=
  captureScreenshot_closes_once
    ⟨none, none, none, some "net::ERR_CONNECTION_REFUSED", none⟩ rfl

/-- Helper: bounds of `Math.max(200, Math.min(3000, x))`. -/
theorem clamp3000_bounds (x : Int) :
    200 ≤ max 200 (min 3000 x) ∧ max 200 (min 3000 x) ≤ 3000 :=
  ⟨le_max_left _ _, max_le (by norm_num) (min_le_left _ _)⟩

/-- C4: `validateViewport` always lands in [200, 3000] on both axes; each
axis independently takes its default (1366 / 768) exactly when `parseInt`
yields `NaN` (absent or unparsable input) and otherwise is the parsed
integer clamped to [200, 3000]; in particular the three anchor cases of
the specification hold. -/
theorem validateViewport_spec (w h : Option String) :
    (200 ≤ (validateViewport w h).1 ∧ (validateViewport w h).1 ≤ 3000 ∧
      200 ≤ (validateViewport w h).2 ∧ (validateViewport w h).2 ≤ 3000) ∧
    (jsParseInt w = none → (validateViewport w h).1 = 1366) ∧
    (jsParseInt h = none → (validateViewport w h).2 = 768) ∧
    (∀ n, jsParseInt w = some n → (validateViewport w h).1 = max 200 (min 3000 n)) ∧
    (∀ n, jsParseInt h = some n → (validateViewport w h).2 = max 200 (min 3000 n)) ∧
    validateViewport none none = (1366, 768) ∧
    validateViewport (some "50") (some "50") = (200, 200) ∧
    validateViewport (some "5000") (some "5000") = (3000, 3000) := by
  refine ⟨?_, ?_, ?_, ?_, ?_, by decide, by decide, by decide⟩
  · cases hw : jsParseInt w <;> cases hh : jsParseInt h <;>
      simp only [validateViewport, hw, hh] <;>
      exact ⟨(clamp3000_bounds _).1, (clamp3000_bounds _).2,
        (clamp3000_bounds _).1, (clamp3000_bounds _).2⟩
  · intro hw
    cases hh : jsParseInt h <;> simp [validateViewport, hw, hh]
  · intro hh
    cases hw : jsParseInt w <;> simp [validateViewport, hw, hh]
  · intro n hw
    cases hh : jsParseInt h <;> simp [validateViewport, hw, hh]
  · intro n hh
    cases hw : jsParseInt w <;> simp [validateViewport, hw, hh]

/-- Helper: one axis of the /v1 inline normalization against the spec's
`normalize` with a tier bound, for any default inside [200, tmax] and any
tier bound at most 3000: the two agree except when the input parses to
exactly 0, where the JS `||` replaces the 0 by the default. -/
theorem v1_axis_agree (raw : Option String) (d tmax : Int)
    (hd : 200 ≤ d) (hdt : d ≤ tmax) (ht : tmax ≤ 3000) :
    max 200 (min tmax (jsOrInt (jsParseInt raw) d)) =
      if jsParseInt raw = some 0 then d else normalizeSpec raw d tmax := by
  have hmin : min (3000 : Int) tmax = tmax := min_eq_right ht
  cases hp : jsParseInt raw with
  | none =>
    simp only [jsOrInt, normalizeSpec, hp, Option.getD_none]
    rw [if_neg (by simp), hmin]
  | some n =>
    by_cases hn : n = 0
    · subst hn
      simp [jsOrInt, hp, min_eq_right hdt, max_eq_right hd]
    · simp only [jsOrInt, normalizeSpec, hp, if_neg hn, Option.getD_some]
      rw [if_neg (by simp [hn]), hmin]

/-- C5 (amended): for every tier record the /v1/screenshot inline
normalization agrees with the spec's `ViewportPolicy.normalize` under the
tier's limits on every input whose axis does not parse to exactly 0; an
axis that parses to 0 is falsy in JS, so `parseInt(x) || default` restores
the default (1366 / 768) instead of clamping 0 up to 200. -/
theorem v1_viewport_matches_policy (width height : Option String) (l : Limits)
    (hl : l = basicLimits ∨ l = proLimits ∨ l = ultraLimits ∨ l = megaLimits) :
    v1Viewport width height l =
      (if jsParseInt width = some 0 then (1366 : Int)
        else normalizeSpec width 1366 l.maxViewportWidth,
       if jsParseInt height = some 0 then (768 : Int)
        else normalizeSpec height 768 l.maxViewportHeight) := by
  rcases hl with rfl | rfl | rfl | rfl
  · exact Prod.ext
      (v1_axis_agree width 1366 1920 (by norm_num) (by norm_num) (by norm_num))
      (v1_axis_agree height 768 1080 (by norm_num) (by norm_num) (by norm_num))
  · exact Prod.ext
      (v1_axis_agree width 1366 2560 (by norm_num) (by norm_num) (by norm_num))
      (v1_axis_agree height 768 1440 (by norm_num) (by norm_num) (by norm_num))
  · exact Prod.ext
      (v1_axis_agree width 1366 3000 (by norm_num) (by norm_num) (by norm_num))
      (v1_axis_agree height 768 3000 (by norm_num) (by norm_num) (by norm_num))
  · exact Prod.ext
      (v1_axis_agree width 1366 3000 (by norm_num) (by norm_num) (by norm_num))
      (v1_axis_agree height 768 3000 (by norm_num) (by norm_num) (by norm_num))

/-- C5 counterexample: on input "0"/"0" with BASIC limits the /v1 inline
normalization produces the defaults (1366, 768) while the spec's
`normalize` with the same limits produces (200, 200). -/
theorem v1_viewport_zero_disagrees :
    v1Viewport (some "0") (some "0") basicLimits = (1366, 768) ∧
    (normalizeSpec (some "0") 1366 basicLimits.maxViewportWidth,
      normalizeSpec (some "0") 768 basicLimits.maxViewportHeight) = (200, 200) ∧
    v1Viewport (some "0") (some "0") basicLimits ≠
      (normalizeSpec (some "0") 1366 basicLimits.maxViewportWidth,
        normalizeSpec (some "0") 768 basicLimits.maxViewportHeight) := by
  refine ⟨by decide, by decide, by decide⟩

/-- C5 witness: a width parsing to 0 restores the default 1366 while a
regular height "500" is kept, under BASIC limits. -/
theorem v1_viewport_matches_policy_witness :
    v1Viewport (some "0") (some "500") basicLimits = (1366, 500) := by
  have h := v1_viewport_matches_policy (some "0") (some "500") basicLimits (Or.inl rfl)
  rw [h]
  decide

/-- C6: the /v1 error classification is the ordered substring ladder of the
source, first match winning: a timeout indication gives TIMEOUT/504;
otherwise a name-resolution failure gives DOMAIN_NOT_FOUND/400; otherwise
connection-refused gives CONNECTION_REFUSED/400; otherwise
CAPTURE_FAILED/500.  The closing conjunct shows order: a message carrying
both a timeout and a resolution marker classifies as TIMEOUT. -/
theorem classifyError_spec (msg : String) :
    ((strIncludes msg "timeout" || strIncludes msg "Timeout") = true →
      classifyError msg = ("TIMEOUT", 504)) ∧
    ((strIncludes msg "timeout" || strIncludes msg "Timeout") = false →
      strIncludes msg "net::ERR_NAME_NOT_RESOLVED" = true →
      classifyError msg = ("DOMAIN_NOT_FOUND", 400)) ∧
    ((strIncludes msg "timeout" || strIncludes msg "Timeout") = false →
      strIncludes msg "net::ERR_NAME_NOT_RESOLVED" = false →
      strIncludes msg "net::ERR_CONNECTION_REFUSED" = true →
      classifyError msg = ("CONNECTION_REFUSED", 400)) ∧
    ((strIncludes msg "timeout" || strIncludes msg "Timeout") = false →
      strIncludes msg "net::ERR_NAME_NOT_RESOLVED" = false →
      strIncludes msg "net::ERR_CONNECTION_REFUSED" = false →
      classifyError msg = ("CAPTURE_FAILED", 500)) ∧
    classifyError "Timeout exceeded at net::ERR_NAME_NOT_RESOLVED" = ("TIMEOUT", 504) := by
  refine ⟨?_, ?_, ?_, ?_, by decide⟩
  · intro h1
    simp [classifyError, h1]
  · intro h1 h2
    simp [classifyError, h1, h2]
  · intro h1 h2 h3
    simp [classifyError, h1, h2, h3]
  · intro h1 h2 h3
    simp [classifyError, h1, h2, h3]

/-- C7: `limits[subscription] || limits.BASIC` resolves the four tier names
to their records and unknown plain tier names to BASIC, but a subscription
string naming an `Object.prototype` member (such as "constructor") finds
the inherited truthy member instead of any tier record, contradicting the
documented BASIC default for every unrecognized tier. -/
theorem getSubscriptionLimits_proto_bug :
    getSubscriptionLimits "constructor" = SubLimitsResult.protoMember "constructor" ∧
    (∀ l : Limits, getSubscriptionLimits "constructor" ≠ SubLimitsResult.limits l) ∧
    getSubscriptionLimits "PLATINUM" = SubLimitsResult.limits basicLimits ∧
    getSubscriptionLimits "BASIC" = SubLimitsResult.limits basicLimits ∧
    getSubscriptionLimits "PRO" = SubLimitsResult.limits proLimits ∧
    getSubscriptionLimits "ULTRA" = SubLimitsResult.limits ultraLimits ∧
    getSubscriptionLimits "MEGA" = SubLimitsResult.limits megaLimits := by
  refine ⟨by decide, ?_, by decide, by decide, by decide, by decide, by decide⟩
  intro l hl
  have h1 : getSubscriptionLimits "constructor" =
      SubLimitsResult.protoMember "constructor" := by
    decide
  rw [h1] at hl
  exact SubLimitsResult.noConfusion hl

/-- C8 (amended): under the strict middleware variant, an unconfigured
proxy secret rejects every request with 500/CONFIG_ERROR before the
handler can run; the repository's second, host-checking variant treats the
secret as optional (see the counterexample). -/
theorem validateRapidAPI_unconfigured (req : ReqHeaders) :
    validateRapidAPI none req = MwOutcome.respond 500 "CONFIG_ERROR" := by
  simp [validateRapidAPI, jsFalsy]

/-- C8 counterexample: with the host-checking middleware variant and no
configured secret, a request carrying key and host headers reaches the
handler instead of any 500 configuration error. -/
theorem validateRapidAPIv2_reaches_handler :
    validateRapidAPIv2 none none
        ⟨none, some "keyvalue1", some "shot.example.test", none, none⟩ =
      MwOutcome.handler "BASIC" ∧
    validateRapidAPIv2 none none
        ⟨none, some "keyvalue1", some "shot.example.test", none, none⟩ ≠
      MwOutcome.respond 500 "CONFIG_ERROR" := by
  refine ⟨by decide, by decide⟩

/-- C9: validation is idempotent on its own normalized output: if
validating `p` succeeds with href `u` and the URL parser, reparsing the
serialized href, returns `q` with the same protocol, hostname and href
(the WHATWG parse-serialize round trip), then validating `q` succeeds,
returns the same href, and makes the same decision as for `p`. -/
theorem validateUrl_idem (p q : ParsedUrl) (u : String)
    (hv : validateUrl (.parsed p) = .valid u)
    (hproto : q.protocol = p.protocol)
    (hhost : q.hostname = p.hostname)
    (hhref : q.href = p.href) :
    validateUrl (.parsed q) = .valid q.href ∧ q.href = u ∧
      validateUrl (.parsed q) = validateUrl (.parsed p) := by
  have hu : u = p.href := validateUrl_valid_href p u hv
  obtain ⟨a, b, c⟩ := p
  obtain ⟨a2, b2, c2⟩ := q
  simp only at hproto hhost hhref
  subst hproto hhost hhref
  subst hu
  exact ⟨hv, rfl, rfl⟩

/-- C9 witness: revalidating the normalized form of a concrete accepted URL
succeeds with the same href and the same decision. -/
theorem validateUrl_idem_witness :
    validateUrl (.parsed ⟨"https:", "example.com", "https://example.com/"⟩) =
      .valid (ParsedUrl.mk "https:" "example.com" "https://example.com/").href ∧
    (ParsedUrl.mk "https:" "example.com" "https://example.com/").href =
      "https://example.com/" ∧
    validateUrl (.parsed ⟨"https:", "example.com", "https://example.com/"⟩) =
      validateUrl (.parsed ⟨"https:", "example.com", "https://example.com/"⟩) :=
  validateUrl_idem ⟨"https:", "example.com", "https://example.com/"⟩
    ⟨"https:", "example.com", "https://example.com/"⟩
    "https://example.com/" (by decide) rfl rfl rfl

/-- C10: on the unauthenticated /screenshot endpoint every capture failure,
whatever its message, is answered 500 with the fixed text, while the
classifier used only by /v1/screenshot maps the same failure kinds to
504 and 400. -/
theorem simple_endpoint_failure (inp : RawInput) (u msg : String) :
    (validateUrl inp = .valid u →
      simpleScreenshotResponse inp (Except.error msg) =
        (500, "Screenshot capture failed")) ∧
    classifyError "Timeout 30000ms exceeded" = ("TIMEOUT", 504) ∧
    classifyError "net::ERR_NAME_NOT_RESOLVED" = ("DOMAIN_NOT_FOUND", 400) ∧
    classifyError "net::ERR_CONNECTION_REFUSED" = ("CONNECTION_REFUSED", 400) := by
  refine ⟨fun hv => ?_, by decide, by decide, by decide⟩
  simp [simpleScreenshotResponse, hv]

end ScreenshotAPI
